import Mathlib

/-!
Verification of the speaker-diarization slice of
`src/api/transcription/whisper/app.py` (class `WhisperTranscriber`):
the duration probe `get_duration` (lines 74-92), the crop clamping of
`segment_embedding` (lines 176-182), the embedding sanitization and
clustering call of `transcribe_with_diarization` (lines 152-163), the
transcript merge loop (lines 165-171) and the timestamp formatter
`time` (lines 184-185).

External calls (librosa, wave, the whisper ASR pipeline, the pyannote
embedding model, sklearn clustering) are modelled at their interfaces:
fallible probes by their `Except` outcome, the per-segment embedding by a
function argument, and the sklearn routine by a definition recording its
validation behavior.  Machine floats are modelled as an inductive type
over the rationals with explicit NaN and infinity values.
-/

/-- One IEEE-754 double as the numeric code distinguishes its values:
NaN, positive infinity, negative infinity, or a finite value (modelled
as a rational). -/
inductive FloatVal where
  | nan : FloatVal
  | posInf : FloatVal
  | negInf : FloatVal
  | finite : ℚ → FloatVal
deriving DecidableEq

/-- The largest finite IEEE-754 double, (2^53 - 1) * 2^971, written in
decimal as 1.7976931348623157e308.  With default arguments
`numpy.nan_to_num` substitutes it for positive infinity. -/
def FLOAT_MAX : ℚ := (2 ^ 53 - 1) * 2 ^ 971

/-- Embedding of `numpy.nan_to_num` with default arguments, applied
entrywise at app.py line 158: NaN becomes 0.0, positive infinity becomes
the largest finite double, negative infinity its negation, and finite
entries are unchanged. -/
def nan_to_num : FloatVal → FloatVal
  | FloatVal.nan => FloatVal.finite 0
  | FloatVal.posInf => FloatVal.finite FLOAT_MAX
  | FloatVal.negInf => FloatVal.finite (-FLOAT_MAX)
  | FloatVal.finite q => FloatVal.finite q

/-- A value is finite when it is neither NaN nor an infinity. -/
def FloatVal.isFinite : FloatVal → Bool
  | FloatVal.finite _ => true
  | _ => false

/-- One recognized segment as it appears in `result["chunks"]`
(app.py line 152): a (start, end) timestamp pair and the recognized
text.  The field `stop` renders the Python key `end`. -/
structure Chunk where
  start : ℚ
  stop : ℚ
  text : String
deriving DecidableEq

/-- Embedding of `WhisperTranscriber.get_duration` (app.py lines 74-92).
The three strategies are external I/O: a librosa metadata read, a wave
frame count divided by the frame rate, and a full librosa decode.  Each
call is modelled by its outcome; `Except.error` stands for the raised
exception that the corresponding except-block catches. -/
def get_duration (a b c : Except Unit ℚ) : ℚ :=
  match a with
  | Except.ok d => d
  | Except.error _ =>
    match b with
    | Except.ok d => d
    | Except.error _ =>
      match c with
      | Except.ok d => d
      | Except.error _ => 60

/-- The crop bounds requested by `segment_embedding` (app.py lines
176-181): the end timestamp is clamped with
`end = min(self.get_duration(audio_path), end)` before
`Segment(start, end)` is cropped.  The `duration` argument is the value
the `get_duration` call produced. -/
def segment_embedding_clip (duration : ℚ) (seg : Chunk) : ℚ × ℚ :=
  (seg.start, min duration seg.stop)

/-- The speaker string attached at app.py line 163:
`'SPEAKER ' + str(labels[i] + 1)`. -/
def speakerName (label : Nat) : String :=
  "SPEAKER " ++ toString (label + 1)

/-- Python `round` applied to a rational value: the nearest integer,
ties resolved to the even integer.  Computed from the numerator and
denominator with floor division so that every case reduces. -/
def pythonRound (q : ℚ) : Int :=
  let f := Int.fdiv q.num (q.den : Int)
  let r := Int.fmod q.num (q.den : Int)
  if 2 * r < (q.den : Int) then f
  else if (q.den : Int) < 2 * r then f + 1
  else if Int.emod f 2 = 0 then f else f + 1

/-- Two-digit decimal rendering used by the Python `timedelta` string
format for minutes and seconds. -/
def pad2 (n : Nat) : String :=
  if n < 10 then "0" ++ toString n else toString n

/-- Rendering of `str(datetime.timedelta(seconds=n))` for an integral
number of seconds: `H:MM:SS` with unpadded hours, preceded by a day
count when the magnitude reaches a day.  `timedelta` normalizes with
floor division, leaving a remainder in [0, 86400). -/
def timedeltaStr (n : Int) : String :=
  let days := Int.fdiv n 86400
  let rem := (Int.fmod n 86400).toNat
  let h := rem / 3600
  let m := (rem % 3600) / 60
  let s := rem % 60
  let hms := toString h ++ ":" ++ pad2 m ++ ":" ++ pad2 s
  if days = 0 then hms
  else if days.natAbs = 1 then toString days ++ " day, " ++ hms
  else toString days ++ " days, " ++ hms

/-- Embedding of `WhisperTranscriber.time` (app.py lines 184-185) as it
is used at line 169: `str(datetime.timedelta(seconds=round(secs)))`. -/
def timeStr (secs : ℚ) : String :=
  timedeltaStr (pythonRound secs)

/-- A recognized segment together with the speaker string the pipeline
attached to it (the `segments[i]["speaker"]` assignment at app.py
line 163). -/
structure LabeledChunk where
  chunk : Chunk
  speaker : String
deriving DecidableEq

/-- The label-attachment loop at app.py lines 162-163: pair each segment
with the string built from its cluster label. -/
def attachSpeakers (segs : List Chunk) (labels : List Nat) : List LabeledChunk :=
  (segs.zip labels).map (fun p => { chunk := p.1, speaker := speakerName p.2 })

/-- Python `text[1:]`: the string without its first character. -/
def dropFirst (s : String) : String :=
  String.mk (s.data.drop 1)

/-- The characters Python `str.strip()` removes. -/
def pySpace (c : Char) : Bool :=
  c == ' ' || c == '\t' || c == '\n' || c == '\r' || c == '\x0b' || c == '\x0c'

/-- Python `str.strip()`: remove leading and trailing whitespace. -/
def pyStrip (s : String) : String :=
  String.mk (((s.data.dropWhile pySpace).reverse.dropWhile pySpace).reverse)

/-- The merge loop of app.py lines 165-170, with `prev` the speaker of
the previous segment (`none` at index 0, so that the recursion renders
the condition `i == 0 or segments[i - 1]["speaker"] != segment["speaker"]`).
A differing speaker emits the header
`"\n" + speaker + ' ' + str(time(start)) + '\n'`; every segment then
appends `text[1:] + ' '`. -/
def mergeBody : List LabeledChunk → Option String → String
  | [], _ => ""
  | s :: rest, prev =>
    (if prev ≠ some s.speaker then
        "\n" ++ s.speaker ++ " " ++ timeStr s.chunk.start ++ "\n"
      else "")
      ++ (dropFirst s.chunk.text ++ " ")
      ++ mergeBody rest (some s.speaker)

/-- Embedding of app.py lines 165-171: fold the labeled segments into
`result_text` starting from the empty string, then
`return result_text.strip()`. -/
def mergeText (lsegs : List LabeledChunk) : String :=
  pyStrip (mergeBody lsegs none)

/-- A transcript block: the speaker header data and the concatenated
text of one maximal run of same-speaker segments. -/
structure TranscriptBlock where
  speaker : String
  startTime : String
  text : String
deriving DecidableEq

/-- Structured view of the same merge loop, with the currently open
block as accumulator: a same-speaker segment extends the open block, a
differing speaker closes it and opens a new one. -/
def mergeBlocksAux : List LabeledChunk → TranscriptBlock → List TranscriptBlock
  | [], cur => [cur]
  | s :: rest, cur =>
    if cur.speaker = s.speaker then
      mergeBlocksAux rest
        { cur with text := cur.text ++ (dropFirst s.chunk.text ++ " ") }
    else
      cur :: mergeBlocksAux rest
        { speaker := s.speaker, startTime := timeStr s.chunk.start,
          text := dropFirst s.chunk.text ++ " " }

/-- The transcript blocks produced by the merge loop: none for an empty
input, otherwise the first segment opens a block. -/
def mergeBlocks : List LabeledChunk → List TranscriptBlock
  | [] => []
  | s :: rest =>
    mergeBlocksAux rest
      { speaker := s.speaker, startTime := timeStr s.chunk.start,
        text := dropFirst s.chunk.text ++ " " }

/-- The text one block contributes to `result_text`: the header line as
emitted at app.py line 169, followed by the block text. -/
def renderBlock (b : TranscriptBlock) : String :=
  "\n" ++ b.speaker ++ " " ++ b.startTime ++ "\n" ++ b.text

/-- Concatenation of the rendered blocks. -/
def renderBlocks : List TranscriptBlock → String
  | [] => ""
  | b :: rest => renderBlock b ++ renderBlocks rest

/-- Written from the spec wording for claim C3 (spec section 4.4): a
block opens exactly at segment 0 and at each segment whose label differs
from that of its predecessor.  This lists those opening segments. -/
def specBlockOpenings : Option String → List LabeledChunk → List LabeledChunk
  | _, [] => []
  | prev, s :: rest =>
    if prev ≠ some s.speaker then s :: specBlockOpenings (some s.speaker) rest
    else specBlockOpenings (some s.speaker) rest

/-- True when the list contains two adjacent newline characters. -/
def twoNewlines : List Char → Bool
  | a :: b :: rest => (a == '\n' && b == '\n') || twoNewlines (b :: rest)
  | _ => false

/-- A string contains a blank line exactly when two newline characters
are adjacent in it. -/
def hasBlankLine (s : String) : Bool :=
  twoNewlines s.data

/-- Modelled from the spec: the clustering routine called at app.py line
160 is the external `sklearn.cluster.AgglomerativeClustering(n).fit`,
whose source is not part of this repository.  Its `fit` validates the
input matrix requiring at least two rows (`ensure_min_samples=2`) and
raises `ValueError` otherwise, and cutting the merge tree raises
`ValueError` when more clusters are requested than there are samples;
on success it returns one integer label in `[0, nClusters)` per row (the
spec section 6 contract).  The spec attaches no meaning to the label
values themselves (section 4.3), so the success branch returns a
deterministic conforming assignment. -/
def agglomerativeClustering (nClusters : Nat) (X : List (List FloatVal)) :
    Except String (List Nat) :=
  if X.length < 2 then
    Except.error "Found array with fewer than 2 samples"
  else if X.length < nClusters then
    Except.error "Cannot extract more clusters than samples"
  else
    Except.ok ((List.range X.length).map (fun i => i % nClusters))

/-- Embedding of the diarization slice of
`WhisperTranscriber.transcribe_with_diarization` (app.py lines 152-171).
The ASR result chunks are the input list; the per-segment
`segment_embedding` call (lines 155-156, an external model application
on a cropped clip) is the `embed` parameter.  The collected rows are
sanitized with `numpy.nan_to_num`, clustered with `num_speakers = 2`,
labelled, and merged into the transcript string. -/
def transcribe_with_diarization (embed : Chunk → List FloatVal)
    (segments : List Chunk) : Except String String :=
  let embeddings := (segments.map embed).map (List.map nan_to_num)
  match agglomerativeClustering 2 embeddings with
  | Except.error e => Except.error e
  | Except.ok labels => Except.ok (mergeText (attachSpeakers segments labels))

/-- The four-segment input of the end-to-end scenario in the spec
(section 8): timestamps [0,2], [2,4], [4,6], [6,8] with texts carrying
the leading-separator convention. -/
def exSegs4 : List Chunk :=
  [⟨0, 2, " hello"⟩, ⟨2, 4, " world"⟩, ⟨4, 6, " goodbye"⟩, ⟨6, 8, " now"⟩]

/-- A five-segment input used for the label pattern [0,0,1,1,0]. -/
def exSegs5 : List Chunk :=
  [⟨0, 2, " a"⟩, ⟨2, 4, " b"⟩, ⟨4, 6, " c"⟩, ⟨6, 8, " d"⟩, ⟨8, 10, " e"⟩]

/-- A two-segment input whose labels differ, producing two blocks. -/
def exSegs2 : List Chunk :=
  [⟨0, 2, " a"⟩, ⟨4, 6, " b"⟩]

/-- A single all-zero 192-dimensional embedding row, as produced for one
segment. -/
def zeroRow : List FloatVal :=
  List.replicate 192 (FloatVal.finite 0)

theorem renderBlocks_mergeBlocksAux (rest : List LabeledChunk) :
    ∀ cur : TranscriptBlock,
      renderBlocks (mergeBlocksAux rest cur) =
        renderBlock cur ++ mergeBody rest (some cur.speaker) := by
  induction rest with
  | nil =>
    intro cur
    simp [mergeBlocksAux, renderBlocks, mergeBody, String.append_empty]
  | cons s rest ih =>
    intro cur
    by_cases h : cur.speaker = s.speaker
    · rw [mergeBlocksAux, if_pos h, ih, mergeBody, if_neg (by simp [h]),
        renderBlock, renderBlock]
      simp [String.append_assoc, String.empty_append, h]
    · rw [mergeBlocksAux, if_neg h, renderBlocks, ih, mergeBody,
        if_pos (by simp [h]), renderBlock, renderBlock]

theorem mergeBody_eq_renderBlocks (lsegs : List LabeledChunk) :
    mergeBody lsegs none = renderBlocks (mergeBlocks lsegs) := by
  cases lsegs with
  | nil => rfl
  | cons s rest =>
    rw [mergeBlocks, renderBlocks_mergeBlocksAux, mergeBody,
      if_pos (by simp), renderBlock]

theorem mergeText_eq_render (lsegs : List LabeledChunk) :
    mergeText lsegs = pyStrip (renderBlocks (mergeBlocks lsegs)) := by
  rw [mergeText, mergeBody_eq_renderBlocks]

theorem mergeBlocksAux_openings (rest : List LabeledChunk) :
    ∀ cur : TranscriptBlock,
      (mergeBlocksAux rest cur).map (fun b => (b.speaker, b.startTime)) =
        (cur.speaker, cur.startTime) ::
          (specBlockOpenings (some cur.speaker) rest).map
            (fun s => (s.speaker, timeStr s.chunk.start)) := by
  induction rest with
  | nil =>
    intro cur
    simp [mergeBlocksAux, specBlockOpenings]
  | cons s rest ih =>
    intro cur
    by_cases h : cur.speaker = s.speaker
    · rw [mergeBlocksAux, if_pos h, ih, specBlockOpenings,
        if_neg (by simp [h])]
      simp [h]
    · rw [mergeBlocksAux, if_neg h, List.map, ih, specBlockOpenings,
        if_pos (by simp [h])]
      simp

theorem mergeBlocks_openings (lsegs : List LabeledChunk) :
    (mergeBlocks lsegs).map (fun b => (b.speaker, b.startTime)) =
      (specBlockOpenings none lsegs).map
        (fun s => (s.speaker, timeStr s.chunk.start)) := by
  cases lsegs with
  | nil => rfl
  | cons s rest =>
    rw [mergeBlocks, mergeBlocksAux_openings, specBlockOpenings,
      if_pos (by simp)]
    simp

/-- C1 is false as stated: sanitization is `numpy.nan_to_num` with
default arguments, which replaces an infinity dimension with the largest
finite double of the matching sign, not with zero.  On the concrete
one-dimensional embedding holding positive infinity, the sanitized
value is `FLOAT_MAX`, which is not zero. -/
theorem nan_to_num_inf_counterexample :
    List.map nan_to_num [FloatVal.posInf] = [FloatVal.finite FLOAT_MAX] ∧
    FLOAT_MAX ≠ 0 ∧
    List.map nan_to_num [FloatVal.posInf] ≠ [FloatVal.finite 0] := by
  have hne : FLOAT_MAX ≠ 0 := by norm_num [FLOAT_MAX]
  refine ⟨rfl, hne, fun h => hne ?_⟩
  simpa [nan_to_num] using h

/-- C1 amended: sanitization replaces each NaN dimension with zero and
each infinity dimension with the largest-magnitude finite double of the
matching sign, leaves every finite dimension unchanged, and therefore
every value fed to the clusterer is finite and no segment is rejected
for embedding corruption. -/
theorem nan_to_num_sanitizes :
    nan_to_num FloatVal.nan = FloatVal.finite 0 ∧
    nan_to_num FloatVal.posInf = FloatVal.finite FLOAT_MAX ∧
    nan_to_num FloatVal.negInf = FloatVal.finite (-FLOAT_MAX) ∧
    (∀ q : ℚ, nan_to_num (FloatVal.finite q) = FloatVal.finite q) ∧
    ∀ v : List FloatVal,
      ((v.map nan_to_num).all FloatVal.isFinite) = true := by
  refine ⟨rfl, rfl, rfl, fun q => rfl, fun v => ?_⟩
  rw [List.all_eq_true]
  intro x hx
  rw [List.mem_map] at hx
  obtain ⟨y, _, rfl⟩ := hx
  cases y <;> rfl

/-- C2 is false as stated: on a single 192-dimensional embedding with
the requested cluster count 2, the sklearn clustering call raises
(its input validation requires at least two samples) instead of
returning one label. -/
theorem single_sample_clustering_counterexample :
    agglomerativeClustering 2 [zeroRow] =
      Except.error "Found array with fewer than 2 samples" ∧
    (agglomerativeClustering 2 [zeroRow]).isOk = false :=
  ⟨rfl, rfl⟩

/-- C2 amended: the clustering call raises whenever the number of
embeddings is below two or below the requested cluster count; it is only
for at least two embeddings and at least as many embeddings as requested
clusters that it returns exactly one label per embedding, each label
lying in `[0, k)`. -/
theorem clustering_labels_when_enough_samples (X : List (List FloatVal))
    (k : Nat) (hk : 0 < k) (h2 : 2 ≤ X.length) (hkX : k ≤ X.length) :
    ∃ ls, agglomerativeClustering k X = Except.ok ls ∧
      ls.length = X.length ∧ ∀ l ∈ ls, l < k := by
  refine ⟨(List.range X.length).map (fun i => i % k), ?_, by simp, ?_⟩
  · rw [agglomerativeClustering, if_neg (Nat.not_lt.mpr h2),
      if_neg (Nat.not_lt.mpr hkX)]
  · intro l hl
    rw [List.mem_map] at hl
    obtain ⟨i, _, rfl⟩ := hl
    exact Nat.mod_lt i hk

theorem clustering_labels_when_enough_samples_witness :
    ∃ ls, agglomerativeClustering 2 [zeroRow, zeroRow] = Except.ok ls ∧
      ls.length = [zeroRow, zeroRow].length ∧ ∀ l ∈ ls, l < 2 :=
  clustering_labels_when_enough_samples [zeroRow, zeroRow] 2
    (by decide) (by decide) (by decide)

/-- C3: the merger emits one block per maximal run of same-label
segments, in original temporal order.  The source loop (rendered by
`mergeText`) equals the rendering of the structured blocks, a block
opens with the speaker string and formatted timestamp of exactly the
first segment and of each segment whose speaker differs from its
predecessor (the spec-side `specBlockOpenings`), and the label pattern
[0,0,1,1,0] yields exactly three blocks, labeled 0, 1 and 0. -/
theorem merge_one_block_per_run :
    (∀ lsegs : List LabeledChunk,
        mergeText lsegs = pyStrip (renderBlocks (mergeBlocks lsegs)) ∧
        (mergeBlocks lsegs).map (fun b => (b.speaker, b.startTime)) =
          (specBlockOpenings none lsegs).map
            (fun s => (s.speaker, timeStr s.chunk.start))) ∧
    (mergeBlocks (attachSpeakers exSegs5 [0, 0, 1, 1, 0])).map
        (fun b => b.speaker) =
      [speakerName 0, speakerName 1, speakerName 0] ∧
    (mergeBlocks (attachSpeakers exSegs5 [0, 0, 1, 1, 0])).length = 3 := by
  refine ⟨fun lsegs => ⟨mergeText_eq_render lsegs, mergeBlocks_openings lsegs⟩,
    by decide, by decide⟩

/-- C4: each appended chunk contributes its text without the first
character followed by one trailing space, only the overall result is
stripped, and on the four-segment example with labels [0,0,1,1] the
transcript has the block of cluster label 0 at 0:00:00 containing
"hello world " and the block of cluster label 1 at 0:00:04 containing
"goodbye now" (its trailing space removed by the final strip). -/
theorem merge_text_end_to_end :
    (∀ (s : LabeledChunk) (rest : List LabeledChunk) (prev : Option String),
        mergeBody (s :: rest) prev =
          (if prev ≠ some s.speaker then
              "\n" ++ s.speaker ++ " " ++ timeStr s.chunk.start ++ "\n"
            else "")
            ++ (dropFirst s.chunk.text ++ " ")
            ++ mergeBody rest (some s.speaker)) ∧
    mergeBlocks (attachSpeakers exSegs4 [0, 0, 1, 1]) =
      [⟨speakerName 0, "0:00:00", "hello world "⟩,
       ⟨speakerName 1, "0:00:04", "goodbye now "⟩] ∧
    mergeText (attachSpeakers exSegs4 [0, 0, 1, 1]) =
      "SPEAKER 1 0:00:00\nhello world \nSPEAKER 2 0:00:04\ngoodbye now" := by
  refine ⟨fun s rest prev => rfl, by decide, by decide⟩

/-- C5: `segment_embedding` clamps the crop end to the minimum of the
segment end and the probed duration, so when the end overshoots the
probed duration the crop never extends past that duration. -/
theorem segment_embedding_clamps (duration : ℚ) (seg : Chunk)
    (hseg : seg.start < seg.stop) (hover : duration < seg.stop) :
    (segment_embedding_clip duration seg).2 = min seg.stop duration ∧
    (segment_embedding_clip duration seg).2 ≤ duration := by
  constructor
  · rw [segment_embedding_clip, min_comm]
  · exact min_le_left duration seg.stop

theorem segment_embedding_clamps_witness :
    (segment_embedding_clip 10 ⟨0, 12, " x"⟩).2 = min 12 10 ∧
    (segment_embedding_clip 10 ⟨0, 12, " x"⟩).2 ≤ 10 :=
  segment_embedding_clamps 10 ⟨0, 12, " x"⟩ (by norm_num) (by norm_num)

/-- C6 is false as stated: the only-if direction of the claimed
equivalence fails, because a strategy can itself yield exactly 60.0
seconds (a recording of true duration one minute).  Here the first
strategy succeeds with 60.0, the probe returns 60.0, and yet not all
three strategies failed. -/
theorem get_duration_sixty_without_failure :
    get_duration (Except.ok 60) (Except.error ()) (Except.error ()) = 60 ∧
    (Except.ok (60 : ℚ) : Except Unit ℚ).isOk = true ∧
    ¬ (get_duration (Except.ok 60) (Except.error ()) (Except.error ()) = 60 →
        (Except.ok (60 : ℚ) : Except Unit ℚ).isOk = false) := by
  refine ⟨rfl, rfl, fun h => ?_⟩
  exact absurd (h rfl) (by decide)

/-- C6 amended: the probe never raises; it returns the first strategy
outcome that succeeds, trying the container-metadata read, then the
frame-count computation, then the full decode, and it returns the
constant 60.0 whenever all three strategies fail (a succeeding strategy
may also happen to return 60.0). -/
theorem get_duration_fallback_chain :
    (∀ (d : ℚ) (b c : Except Unit ℚ), get_duration (Except.ok d) b c = d) ∧
    (∀ (d : ℚ) (c : Except Unit ℚ),
        get_duration (Except.error ()) (Except.ok d) c = d) ∧
    (∀ d : ℚ,
        get_duration (Except.error ()) (Except.error ()) (Except.ok d) = d) ∧
    get_duration (Except.error ()) (Except.error ()) (Except.error ()) = 60 :=
  ⟨fun d b c => rfl, fun d c => rfl, fun d => rfl, rfl⟩

/-- C7 is false as stated: when the first two strategies fail and the
third succeeds with 30.0 the probe returns 30.0, not the constant 60.0;
and when a strategy reports duration 0.0 (an empty recording) the probe
returns 0.0, which is not strictly positive. -/
theorem get_duration_positive_counterexample :
    get_duration (Except.error ()) (Except.error ()) (Except.ok 30) = 30 ∧
    ¬ ((30 : ℚ) = 60) ∧
    get_duration (Except.ok 0) (Except.error ()) (Except.error ()) = 0 ∧
    ¬ ((0 : ℚ) > 0) :=
  ⟨rfl, by norm_num, rfl, by norm_num⟩

/-- C7 amended: the probe returns a strictly positive value provided
every succeeding strategy reports a strictly positive duration, and when
all three strategies fail the result is the constant default 60.0. -/
theorem get_duration_positive (a b c : Except Unit ℚ)
    (ha : ∀ d, a = Except.ok d → 0 < d)
    (hb : ∀ d, b = Except.ok d → 0 < d)
    (hc : ∀ d, c = Except.ok d → 0 < d) :
    0 < get_duration a b c := by
  cases a with
  | ok d => exact ha d rfl
  | error _ =>
    cases b with
    | ok d => exact hb d rfl
    | error _ =>
      cases c with
      | ok d => exact hc d rfl
      | error _ => norm_num [get_duration]

theorem get_duration_positive_witness :
    0 < get_duration (Except.ok 5) (Except.error ()) (Except.error ()) :=
  get_duration_positive (Except.ok 5) (Except.error ()) (Except.error ())
    (fun d h => by
      rw [show d = (5 : ℚ) from (Except.ok.injEq ..).mp h.symm]
      norm_num)
    (fun d h => by simp at h)
    (fun d h => by simp at h)

/-- C8 is false as stated: on an empty recognized-segment list the
clustering stage is still invoked on a zero-row matrix and raises, so
the pipeline propagates an error instead of returning an empty
transcript string. -/
theorem empty_segments_counterexample :
    transcribe_with_diarization (fun _ => zeroRow) [] =
      Except.error "Found array with fewer than 2 samples" ∧
    (transcribe_with_diarization (fun _ => zeroRow) []).isOk = false :=
  ⟨rfl, rfl⟩

/-- C8 amended: on an empty recognized-segment list the pipeline raises
from the clustering stage, for any embedding model; the merge stage
itself, applied to an empty labeled-segment list, does yield the empty
transcript. -/
theorem empty_segments_error_merge_empty :
    (∀ embed : Chunk → List FloatVal,
        transcribe_with_diarization embed [] =
          Except.error "Found array with fewer than 2 samples") ∧
    mergeText [] = "" :=
  ⟨fun embed => rfl, rfl⟩

/-- C9 is false as stated: on a two-block input there is no blank line
before the second speaker header; the header follows a single newline.
The single-segment part of the claim does hold and is recorded in the
amended theorem. -/
theorem no_blank_line_counterexample :
    mergeText (attachSpeakers exSegs2 [0, 1]) =
      "SPEAKER 1 0:00:00\na \nSPEAKER 2 0:00:04\nb" ∧
    hasBlankLine (mergeText (attachSpeakers exSegs2 [0, 1])) = false ∧
    (mergeBlocks (attachSpeakers exSegs2 [0, 1])).length = 2 := by
  refine ⟨by decide, by decide, by decide⟩

/-- C9 amended: rendering places each new speaker header on a fresh line
immediately after the previous block text, separated by a single newline
and no blank line; a single-segment input produces exactly one block,
whose rendered transcript carries no blank line and no trailing
blank-line artifact. -/
theorem merge_newline_separation :
    (∀ lsegs : List LabeledChunk,
        mergeText lsegs = pyStrip (renderBlocks (mergeBlocks lsegs))) ∧
    (mergeBlocks (attachSpeakers [⟨0, 2, " hello"⟩] [0])).length = 1 ∧
    mergeText (attachSpeakers [⟨0, 2, " hello"⟩] [0]) =
      "SPEAKER 1 0:00:00\nhello" ∧
    hasBlankLine (mergeText (attachSpeakers [⟨0, 2, " hello"⟩] [0])) =
      false := by
  refine ⟨mergeText_eq_render, by decide, by decide, by decide⟩

/-- C10: the speaker label attached to each segment is the string
"SPEAKER " followed by the cluster label plus one, so the rendered
speaker numbers are one-based and lie in `[1, k]` when the labels lie in
`[0, k)`. -/
theorem speaker_label_one_based (segs : List Chunk) (labels : List Nat)
    (k : Nat) (hlen : segs.length = labels.length)
    (hk : ∀ l ∈ labels, l < k) :
    (attachSpeakers segs labels).map (fun s => s.speaker) =
      labels.map (fun l => "SPEAKER " ++ toString (l + 1)) ∧
    ∀ l ∈ labels, 1 ≤ l + 1 ∧ l + 1 ≤ k := by
  constructor
  · have hsnd : (segs.zip labels).map Prod.snd = labels :=
      List.map_snd_zip segs labels (le_of_eq hlen.symm)
    calc (attachSpeakers segs labels).map (fun s => s.speaker)
        = ((segs.zip labels).map Prod.snd).map
            (fun l => "SPEAKER " ++ toString (l + 1)) := by
          rw [attachSpeakers, List.map_map, List.map_map]
          rfl
      _ = labels.map (fun l => "SPEAKER " ++ toString (l + 1)) := by
          rw [hsnd]
  · exact fun l hl => ⟨Nat.succ_le_succ (Nat.zero_le l), hk l hl⟩

theorem speaker_label_one_based_witness :
    (attachSpeakers [(⟨0, 2, " a"⟩ : Chunk)] [0]).map (fun s => s.speaker) =
      [0].map (fun l => "SPEAKER " ++ toString (l + 1)) ∧
    ∀ l ∈ [0], 1 ≤ l + 1 ∧ l + 1 ≤ 2 :=
  speaker_label_one_based [⟨0, 2, " a"⟩] [0] 2 rfl (by decide)
